import Mathlib

/-!
# set_slice.c : setting a custom EEVDF slice through sched_setattr

A shallow embedding of `src/set_slice.c`.  The program is a single `main`
that parses two command-line arguments, fills a `struct sched_attr`, prints a
confirmation line, issues one `sched_setattr` system call and reports the
outcome.

Machine integers are mathematical integers with explicit reduction modulo
`2 ^ 32` or `2 ^ 64` at every conversion the C code performs.  The C library
and the kernel (`atoi`, `syscall`, `strerror`, the contents of uninitialised
stack memory) are parameters collected in `Env`; the observable effects of the
program (standard output, standard error, `errno`, the system calls issued)
are fields of `World`, threaded through the code.
-/

namespace SetSlice

/-! ## Machine integers -/

/-- Conversion to the C type `int` (32-bit two's complement). -/
def toInt32 (x : Int) : Int :=
  let m := x % 2 ^ 32
  if m < 2 ^ 31 then m else m - 2 ^ 32

/-- Conversion to `uint32_t`. -/
def toUInt32 (x : Int) : Nat := (x % 2 ^ 32).toNat

/-- Conversion to `uint64_t`; on a negative `int` this is the value of the
sign-extended 64-bit pattern. -/
def toUInt64 (x : Int) : Nat := (x % 2 ^ 64).toNat

/-- Multiplication of two `uint64_t` values. -/
def mulU64 (a b : Nat) : Nat := (a * b) % 2 ^ 64

/-! ## Constants and the attribute record -/

/-- The two architectures for which the source carries a system call number. -/
inductive Arch where
  | x86_64
  | aarch64
deriving DecidableEq

/-- The constant `__NR_sched_setattr` (lines 25-31). -/
def NR_sched_setattr : Arch → Nat
  | .x86_64 => 314
  | .aarch64 => 274

/-- The constant `SCHED_NORMAL` (lines 33-35). -/
def SCHED_NORMAL : Nat := 0

/-- The record `struct sched_attr` (lines 37-46); unsigned fields are naturals,
`sched_nice` is a signed integer. -/
structure sched_attr where
  size : Nat
  sched_policy : Nat
  sched_flags : Nat
  sched_nice : Int
  sched_priority : Nat
  sched_runtime : Nat
  sched_deadline : Nat
  sched_period : Nat
deriving DecidableEq

/-- Byte widths of the fields of `struct sched_attr`, in declaration order:
`uint32_t`, `uint32_t`, `uint64_t`, `int32_t`, `uint32_t`, `uint64_t`,
`uint64_t`, `uint64_t`. -/
def sched_attr_fields : List Nat := [4, 4, 8, 4, 4, 8, 8, 8]

/-- Rounds the offset `off` up to the next multiple of `a`. -/
def alignUp (off a : Nat) : Nat := (off + a - 1) / a * a

/-- Offset just past the last field when every field is placed at the next
multiple of its own width (natural alignment of fixed-width integers). -/
def layoutEnd (fields : List Nat) : Nat :=
  fields.foldl (fun off w => alignUp off w + w) 0

/-- Value of `sizeof` for a struct of naturally aligned fixed-width integers:
the end of the last field rounded up to the largest field width. -/
def sizeof_struct (fields : List Nat) : Nat :=
  alignUp (layoutEnd fields) (fields.foldl max 1)

/-- The value of `sizeof(struct sched_attr)`. -/
def sizeof_sched_attr : Nat := sizeof_struct sched_attr_fields

/-- The effect of `memset(&attr, 0, sizeof(attr))`: every byte, hence every
field, of the record becomes zero, whatever it held before. -/
def memset0 (_attr : sched_attr) : sched_attr :=
  { size := 0, sched_policy := 0, sched_flags := 0, sched_nice := 0,
    sched_priority := 0, sched_runtime := 0, sched_deadline := 0,
    sched_period := 0 }

/-! ## The environment and the observable world -/

/-- One call of `syscall(nr, pid, attr, flags)` as the kernel sees it; the
record is passed by address, so the kernel reads its contents at call time. -/
structure Syscall where
  nr : Nat
  pid : Int
  attr : sched_attr
  flags : Nat
deriving DecidableEq

/-- The C library and kernel the program runs against. -/
structure Env where
  /-- Architecture the program was compiled for. -/
  arch : Arch
  /-- The function `atoi` of the C library. -/
  atoi : String → Int
  /-- The function `syscall` of the C library: the returned `long` and the
  value of `errno` after the call. -/
  syscall : Nat → Int → sched_attr → Nat → Int × Nat
  /-- The message the C library associates with an `errno` value. -/
  strerror : Nat → String
  /-- Contents of the stack slot of `attr` before it is initialised. -/
  uninit : sched_attr

/-- Observable state: bytes written to standard output and standard error, the
value of `errno`, and the system calls issued so far, oldest first. -/
structure World where
  stdout : String
  stderr : String
  errno : Nat
  calls : List Syscall
deriving DecidableEq

/-- The world at program start. -/
def World.init : World := { stdout := "", stderr := "", errno := 0, calls := [] }

/-- Effect of `printf` once the format has been expanded to `s`. -/
def printf (s : String) (w : World) : World := { w with stdout := w.stdout ++ s }

/-- Effect of `perror(s)`: the text `s`, a colon and a blank, the message of the
current `errno`, and a newline, written to standard error. -/
def perror (env : Env) (s : String) (w : World) : World :=
  { w with stderr := w.stderr ++ (s ++ ": " ++ env.strerror w.errno ++ "\n") }

/-- Expansion of the conversion `%d`. -/
def fmt_d (x : Int) : String := toString x

/-- Expansion of the conversion `%llu`. -/
def fmt_llu (n : Nat) : String := toString n

/-! ## The program -/

/-- The function `sched_setattr` (lines 48-51): one `syscall`, whose `long`
result is converted to `int`. -/
def sched_setattr (env : Env) (pid : Int) (attr : sched_attr) (flags : Nat)
    (w : World) : Int × World :=
  let r := env.syscall (NR_sched_setattr env.arch) pid attr flags
  (toInt32 r.1,
    { w with
      errno := r.2
      calls := w.calls ++ [{ nr := NR_sched_setattr env.arch, pid := pid,
                             attr := attr, flags := flags }] })

/-- The usage line printed first when the argument count is wrong. -/
def usageLine (argv0 : String) : String := "Usage: " ++ argv0 ++ " <PID> <SLICE_MS>\n"

/-- The confirmation line printed before the system call (lines 83-84). -/
def confirmLine (pid slice_ms : Int) (runtime : Nat) : String :=
  "Setting PID " ++ fmt_d pid ++ " to SCHED_NORMAL with Slice " ++ fmt_d slice_ms
    ++ " ms (" ++ fmt_llu runtime ++ " ns)...\n"

/-- The final line printed after a successful call (line 91). -/
def successLine (pid : Int) : String :=
  "Success! PID " ++ fmt_d pid ++ " now has a custom slice.\n"

/-- The value of `slice_ns` (line 64): the `int` is converted to `uint64_t` and
multiplied by `1000000ULL`. -/
def slice_ns (slice_ms : Int) : Nat := mulU64 (toUInt64 slice_ms) 1000000

/-- The record `main` builds (lines 66-81) from the uninitialised stack slot. -/
def buildAttr (uninit : sched_attr) (slice_ms : Int) : sched_attr :=
  let attr := memset0 uninit
  let attr := { attr with size := toUInt32 sizeof_sched_attr }
  let attr := { attr with sched_policy := toUInt32 SCHED_NORMAL }
  let attr := { attr with sched_nice := toInt32 0 }
  let attr := { attr with sched_runtime := slice_ns slice_ms }
  attr

/-- The function `main` (lines 53-93).  The argument vector is `argv0 :: args`,
so `argc` is `args.length + 1`; the result is the exit status and the final
world. -/
def main (env : Env) (argv0 : String) (args : List String) (w : World) :
    Int × World :=
  let argv := argv0 :: args
  let argc := argv.length
  if argc ≠ 3 then
    let w := printf (usageLine (argv.getD 0 "")) w
    let w := printf "  PID: Task ID to update\n" w
    let w := printf "  SLICE_MS: Slice in milliseconds (e.g. 10)\n" w
    (1, w)
  else
    let pid := toInt32 (env.atoi (argv.getD 1 ""))
    let slice_ms := toInt32 (env.atoi (argv.getD 2 ""))
    let attr := buildAttr env.uninit slice_ms
    let w := printf (confirmLine pid slice_ms attr.sched_runtime) w
    let r := sched_setattr env pid attr 0 w
    if r.1 < 0 then
      let w := perror env "sched_setattr failed" r.2
      (1, w)
    else
      let w := printf (successLine pid) r.2
      (0, w)

/-- The task id `main` parses from its first argument. -/
def parsedPid (env : Env) (a1 : String) : Int := toInt32 (env.atoi a1)

/-- The slice `main` parses from its second argument. -/
def parsedSlice (env : Env) (a2 : String) : Int := toInt32 (env.atoi a2)

/-- A complete run of the program from the initial world. -/
def run (env : Env) (argv0 : String) (args : List String) : Int × World :=
  main env argv0 args World.init

/-! ## A sample environment -/

/-- Decimal value of a run of leading digits, most significant first. -/
def digitsValue : List Char → Nat → Nat
  | [], acc => acc
  | c :: cs, acc => if c.isDigit then digitsValue cs (acc * 10 + (c.toNat - 48)) else acc

/-- A reading of `atoi`: leading white space is skipped, an optional sign is
read, then the longest run of decimal digits. -/
def sampleAtoi (s : String) : Int :=
  match s.data.dropWhile Char.isWhitespace with
  | '-' :: cs => - (digitsValue cs 0 : Int)
  | '+' :: cs => (digitsValue cs 0 : Int)
  | cs => (digitsValue cs 0 : Int)

/-- A kernel in which task 1234 may be changed by the caller, task 1 may not
(`EPERM`, 1) and no other task exists (`ESRCH`, 3). -/
def sampleSyscall (_nr : Nat) (pid : Int) (_attr : sched_attr) (_flags : Nat) : Int × Nat :=
  if pid = 1234 then (0, 0) else if pid = 1 then (-1, 1) else (-1, 3)

/-- The messages of the two error numbers the sample kernel produces. -/
def sampleStrerror (e : Nat) : String :=
  if e = 1 then "Operation not permitted"
  else if e = 3 then "No such process"
  else "Unknown error"

/-- A sample environment with stale non-zero stack contents. -/
def sampleEnv : Env :=
  { arch := Arch.x86_64
    atoi := sampleAtoi
    syscall := sampleSyscall
    strerror := sampleStrerror
    uninit := { size := 7, sched_policy := 6, sched_flags := 5, sched_nice := -4,
                sched_priority := 3, sched_runtime := 2, sched_deadline := 1,
                sched_period := 9 } }

/-- The `sched_setattr` call of a two-argument run, made in the world that
follows the confirmation line: its `int` result and the world after it. -/
def theCall (env : Env) (a1 a2 : String) : Int × World :=
  let pid := parsedPid env a1
  let slice_ms := parsedSlice env a2
  let attr := buildAttr env.uninit slice_ms
  sched_setattr env pid attr 0 (printf (confirmLine pid slice_ms attr.sched_runtime) World.init)

/-- The value the `sched_setattr` call of a two-argument run returns to `main`. -/
def callResult (env : Env) (a1 a2 : String) : Int := (theCall env a1 a2).1

/-- The value of `errno` after the `sched_setattr` call of a two-argument run. -/
def callErrno (env : Env) (a1 a2 : String) : Nat := (theCall env a1 a2).2.errno

/-! ## Auxiliary facts -/

theorem toInt32_bounds (x : Int) : -2 ^ 31 ≤ toInt32 x ∧ toInt32 x < 2 ^ 31 := by
  unfold toInt32
  simp only []
  split <;> omega

theorem parsedSlice_bounds (env : Env) (a2 : String) :
    -2 ^ 31 ≤ parsedSlice env a2 ∧ parsedSlice env a2 < 2 ^ 31 :=
  toInt32_bounds _

theorem slice_ns_mod (s : Int) : slice_ns s = ((s * 1000000) % 2 ^ 64).toNat := by
  unfold slice_ns mulU64 toUInt64
  have h0 : (0 : Int) ≤ s % 2 ^ 64 := Int.emod_nonneg _ (by norm_num)
  have h1 : (0 : Int) ≤ (s * 1000000) % 2 ^ 64 := Int.emod_nonneg _ (by norm_num)
  apply Int.ofNat_inj.mp
  rw [Int.toNat_of_nonneg h1, Int.ofNat_emod, Int.ofNat_mul, Int.toNat_of_nonneg h0]
  calc (s % 2 ^ 64 * ((1000000 : Nat) : Int)) % ((2 ^ 64 : Nat) : Int)
      = (s % 2 ^ 64 * 1000000) % 2 ^ 64 := by norm_num
    _ = ((s % 2 ^ 64) % 2 ^ 64 * (1000000 % 2 ^ 64)) % 2 ^ 64 := Int.mul_emod _ _ _
    _ = (s % 2 ^ 64 * (1000000 % 2 ^ 64)) % 2 ^ 64 := by rw [Int.emod_emod]
    _ = (s * 1000000) % 2 ^ 64 := (Int.mul_emod _ _ _).symm

theorem slice_ns_neg (s : Int) (h1 : -2 ^ 31 ≤ s) (h2 : s < 0) :
    slice_ns s = 2 ^ 64 - s.natAbs * 1000000 := by
  rw [slice_ns_mod]
  have e3 : (2 : Int) ^ 31 = 2147483648 := by norm_num
  rw [e3] at h1
  have e : (s * 1000000) % 2 ^ 64 = s * 1000000 + 2 ^ 64 := by
    rw [← Int.add_mul_emod_self_left (s * 1000000) (2 ^ 64) 1, mul_one]
    apply Int.emod_eq_of_lt <;> norm_num <;> omega
  rw [e]
  norm_num
  omega

theorem slice_ns_nonneg (s : Int) (h0 : 0 ≤ s) (h2 : s < 2 ^ 31) :
    slice_ns s = s.toNat * 1000000 := by
  rw [slice_ns_mod]
  have e3 : (2 : Int) ^ 31 = 2147483648 := by norm_num
  rw [e3] at h2
  have e : (s * 1000000) % 2 ^ 64 = s * 1000000 := by
    apply Int.emod_eq_of_lt <;> norm_num <;> omega
  rw [e]
  omega

theorem slice_ns_cases (s : Int) (h1 : -2 ^ 31 ≤ s) (h2 : s < 2 ^ 31) :
    slice_ns s = if s < 0 then 2 ^ 64 - s.natAbs * 1000000 else s.toNat * 1000000 := by
  split
  · exact slice_ns_neg s h1 (by assumption)
  · exact slice_ns_nonneg s (by omega) h2

theorem buildAttr_eq (u : sched_attr) (s : Int) :
    buildAttr u s =
      { size := 48, sched_policy := 0, sched_flags := 0, sched_nice := 0,
        sched_priority := 0, sched_runtime := slice_ns s, sched_deadline := 0,
        sched_period := 0 } := by
  rfl

/-- The complete outcome of a run with exactly two arguments. -/
theorem run_two (env : Env) (argv0 a1 a2 : String) :
    run env argv0 [a1, a2] =
      if callResult env a1 a2 < 0 then
        (1, { stdout := confirmLine (parsedPid env a1) (parsedSlice env a2)
                          (slice_ns (parsedSlice env a2))
              stderr := "sched_setattr failed: " ++ env.strerror (callErrno env a1 a2) ++ "\n"
              errno := callErrno env a1 a2
              calls := [{ nr := NR_sched_setattr env.arch, pid := parsedPid env a1,
                          attr := buildAttr env.uninit (parsedSlice env a2), flags := 0 }] })
      else
        (0, { stdout := confirmLine (parsedPid env a1) (parsedSlice env a2)
                          (slice_ns (parsedSlice env a2))
                        ++ successLine (parsedPid env a1)
              stderr := ""
              errno := callErrno env a1 a2
              calls := [{ nr := NR_sched_setattr env.arch, pid := parsedPid env a1,
                          attr := buildAttr env.uninit (parsedSlice env a2), flags := 0 }] }) := by
  have h3 : ¬ ((argv0 :: [a1, a2]).length ≠ 3) := by simp
  simp only [run, main, if_neg h3]
  simp only [callResult, callErrno, theCall, sched_setattr, printf, perror,
    World.init, parsedPid, parsedSlice, List.getD_cons_succ,
    List.getD_cons_zero, buildAttr_eq]
  split <;> simp [String.append_assoc]

/-- The system calls of a run with exactly two arguments. -/
theorem run_two_calls (env : Env) (argv0 a1 a2 : String) :
    (run env argv0 [a1, a2]).2.calls =
      [{ nr := NR_sched_setattr env.arch, pid := parsedPid env a1,
         attr := buildAttr env.uninit (parsedSlice env a2), flags := 0 }] := by
  rw [run_two]
  split <;> rfl

/-- The complete outcome of a run whose argument count is wrong. -/
theorem run_usage (env : Env) (argv0 : String) (args : List String) (h : args.length ≠ 2) :
    run env argv0 args =
      (1, { stdout := "Usage: " ++ argv0 ++ " <PID> <SLICE_MS>\n"
                        ++ "  PID: Task ID to update\n"
                        ++ "  SLICE_MS: Slice in milliseconds (e.g. 10)\n"
            stderr := ""
            errno := 0
            calls := [] }) := by
  have h3 : (argv0 :: args).length ≠ 3 := by simp; omega
  simp only [run, main, if_pos h3]
  simp [printf, World.init, usageLine, String.append_assoc]

theorem data_mid (x l y L : String) (h : L = x ++ l ++ y) : l.data <:+: L.data := by
  subst h
  exact ⟨x.data, y.data, by simp [String.data_append]⟩

theorem not_suffix_of_tails (a c b d : List Char) (hlen : c.length = d.length)
    (hne : c ≠ d) : ¬ (a ++ c) <:+ (b ++ d) := by
  intro h
  have hc : c <:+ b ++ d := (List.suffix_append a c).trans h
  have hd : d <:+ b ++ d := List.suffix_append b d
  have hcd : c <:+ d := List.suffix_of_suffix_length_le hc hd (le_of_eq hlen)
  exact hne (hcd.eq_of_length hlen)

theorem successLine_not_suffix (pid pid2 s : Int) (n : Nat) :
    ¬ (successLine pid).data <:+ (confirmLine pid2 s n).data := by
  have e1 : successLine pid
      = ("Success! PID " ++ fmt_d pid ++ " now has a custom slic") ++ "e.\n" := by
    simp only [successLine, String.append_assoc]
    rfl
  have e2 : confirmLine pid2 s n
      = ("Setting PID " ++ fmt_d pid2 ++ " to SCHED_NORMAL with Slice " ++ fmt_d s
          ++ " ms (" ++ fmt_llu n ++ " ns).") ++ "..\n" := by
    simp only [confirmLine, String.append_assoc]
    rfl
  rw [e1, e2, String.data_append, String.data_append]
  exact not_suffix_of_tails _ _ _ _ (by decide) (by decide)

/-! ## The claims -/

/-- Claim C1: for every non-negative `slice_ms` that `main` parses from its
second argument (necessarily below `2 ^ 31`), the `sched_runtime` field of the
record passed to `sched_setattr` equals `slice_ms * 1000000` as a number, that
product is below `2 ^ 64` so the unsigned 64-bit multiplication does not wrap,
and the confirmation line on standard output prints that same value; a slice
of 20 gives 20000000 and a slice of 0 gives 0. -/
theorem C1_runtime_exact_nonneg (env : Env) (argv0 a1 a2 : String)
    (h0 : 0 ≤ parsedSlice env a2) :
    parsedSlice env a2 < 2 ^ 31 ∧
    (parsedSlice env a2).toNat * 1000000 < 2 ^ 64 ∧
    (run env argv0 [a1, a2]).2.calls.map (fun c => (c.attr.sched_runtime : Int))
      = [parsedSlice env a2 * 1000000] ∧
    (confirmLine (parsedPid env a1) (parsedSlice env a2)
        ((parsedSlice env a2).toNat * 1000000)).data
      <+: (run env argv0 [a1, a2]).2.stdout.data ∧
    (fmt_llu ((parsedSlice env a2).toNat * 1000000)).data
      <:+: (confirmLine (parsedPid env a1) (parsedSlice env a2)
            ((parsedSlice env a2).toNat * 1000000)).data ∧
    slice_ns 20 = 20000000 ∧ slice_ns 0 = 0 := by
  have hb := (parsedSlice_bounds env a2).2
  have hn := slice_ns_nonneg _ h0 hb
  have e3 : (2 : Int) ^ 31 = 2147483648 := by norm_num
  refine ⟨hb, ?_, ?_, ?_, ?_, by decide, by decide⟩
  · rw [e3] at hb
    norm_num
    omega
  · rw [run_two_calls, buildAttr_eq]
    simp only [List.map_cons, List.map_nil, hn]
    congr 1
    push_cast
    rw [Int.toNat_of_nonneg h0]
  · rw [run_two, ← hn]
    split
    · exact List.prefix_refl _
    · simp only [String.data_append]
      exact List.prefix_append _ _
  · exact data_mid _ _ _ _ rfl

theorem C1_runtime_exact_nonneg_witness :
    0 ≤ parsedSlice sampleEnv "20" ∧
    (run sampleEnv "set_slice" ["1234", "20"]).2.calls.map
      (fun c => (c.attr.sched_runtime : Int)) = [20000000] :=
  ⟨by decide, (C1_runtime_exact_nonneg sampleEnv "set_slice" "1234" "20" (by decide)).2.2.1⟩

/-- Claim C2: in every run with two arguments the `size` field of the record
passed to `sched_setattr` is `sizeof(struct sched_attr)`, which is 48: the sum
4+4+8+4+4+8+8+8 of the field widths, natural alignment inserting no padding. -/
theorem C2_size_is_sizeof (env : Env) (argv0 a1 a2 : String) :
    (run env argv0 [a1, a2]).2.calls.map (fun c => c.attr.size) = [sizeof_sched_attr] ∧
    sizeof_sched_attr = 48 ∧
    sched_attr_fields.sum = 48 ∧
    layoutEnd sched_attr_fields = sched_attr_fields.sum := by
  refine ⟨?_, by decide, by decide, by decide⟩
  rw [run_two_calls, buildAttr_eq]
  rfl

/-- Claim C3: in every run with two arguments the fields `sched_flags`,
`sched_priority`, `sched_deadline` and `sched_period` of the record passed to
`sched_setattr` are zero, whatever the stack slot held before `memset`. -/
theorem C3_unset_fields_zero (env : Env) (argv0 a1 a2 : String) :
    (run env argv0 [a1, a2]).2.calls.map
        (fun c => (c.attr.sched_flags, c.attr.sched_priority, c.attr.sched_deadline,
                   c.attr.sched_period))
      = [(0, 0, 0, 0)] := by
  rw [run_two_calls, buildAttr_eq]
  rfl

/-- Claim C4: in every run with two arguments the record passed to
`sched_setattr` has `sched_policy` equal to `SCHED_NORMAL`, which is 0, and
`sched_nice` equal to 0; for the arguments 1234 and 20 the record has policy 0,
nice 0 and runtime 20000000, and is submitted for task 1234. -/
theorem C4_policy_and_nice (env : Env) (argv0 a1 a2 : String) :
    (run env argv0 [a1, a2]).2.calls.map (fun c => (c.attr.sched_policy, c.attr.sched_nice))
      = [(SCHED_NORMAL, 0)] ∧
    SCHED_NORMAL = 0 ∧
    (run { env with atoi := sampleAtoi } argv0 ["1234", "20"]).2.calls.map
        (fun c => (c.pid, c.attr.sched_policy, c.attr.sched_nice, c.attr.sched_runtime))
      = [(1234, 0, 0, 20000000)] := by
  refine ⟨?_, rfl, ?_⟩
  · rw [run_two_calls, buildAttr_eq]
    rfl
  · have e1 : parsedPid { env with atoi := sampleAtoi } "1234" = 1234 := by
      show toInt32 (sampleAtoi "1234") = 1234
      decide
    have e2 : slice_ns (parsedSlice { env with atoi := sampleAtoi } "20") = 20000000 := by
      show slice_ns (toInt32 (sampleAtoi "20")) = 20000000
      decide
    rw [run_two_calls, buildAttr_eq]
    simp only [List.map_cons, List.map_nil, e1, e2]

/-- Claim C5: when the number of arguments after the program name is not two,
`main` writes the usage text, which names `<PID>` and `<SLICE_MS>`, to standard
output, writes nothing to standard error, returns 1 and issues no system
call. -/
theorem C5_usage_on_bad_argc (env : Env) (argv0 : String) (args : List String)
    (h : args.length ≠ 2) :
    (run env argv0 args).1 = 1 ∧
    (run env argv0 args).2.calls = [] ∧
    (run env argv0 args).2.stderr = "" ∧
    (run env argv0 args).2.stdout
      = "Usage: " ++ argv0 ++ " <PID> <SLICE_MS>\n" ++ "  PID: Task ID to update\n"
          ++ "  SLICE_MS: Slice in milliseconds (e.g. 10)\n" ∧
    "<PID>".data <:+: (run env argv0 args).2.stdout.data ∧
    "<SLICE_MS>".data <:+: (run env argv0 args).2.stdout.data := by
  rw [run_usage env argv0 args h]
  refine ⟨rfl, rfl, rfl, rfl, ?_, ?_⟩
  · refine data_mid ("Usage: " ++ argv0 ++ " ")
      _ (" <SLICE_MS>\n  PID: Task ID to update\n  SLICE_MS: Slice in milliseconds (e.g. 10)\n")
      _ ?_
    simp only [String.append_assoc]
    rfl
  · refine data_mid ("Usage: " ++ argv0 ++ " <PID> ")
      _ ("\n  PID: Task ID to update\n  SLICE_MS: Slice in milliseconds (e.g. 10)\n") _ ?_
    simp only [String.append_assoc]
    rfl

theorem C5_usage_on_bad_argc_witness :
    ["1234", "20", "extra"].length ≠ 2 ∧
    (run sampleEnv "set_slice" ["1234", "20", "extra"]).1 = 1 ∧
    (run sampleEnv "set_slice" ["1234", "20", "extra"]).2.calls = [] ∧
    (run sampleEnv "set_slice" ["1234", "20", "extra"]).2.stdout
      = "Usage: set_slice <PID> <SLICE_MS>\n  PID: Task ID to update\n  SLICE_MS: Slice in milliseconds (e.g. 10)\n" :=
  ⟨by decide,
   (C5_usage_on_bad_argc sampleEnv "set_slice" ["1234", "20", "extra"] (by decide)).1,
   (C5_usage_on_bad_argc sampleEnv "set_slice" ["1234", "20", "extra"] (by decide)).2.1,
   (C5_usage_on_bad_argc sampleEnv "set_slice" ["1234", "20", "extra"] (by decide)).2.2.2.1⟩

/-- Claim C6: in every run with exactly two arguments, whatever the two strings
are and whatever the call returns, exactly one system call is issued: the
`sched_setattr` call number, the task id parsed from the first argument, the
populated record, and flags 0.  A slice of 0 is submitted like any other. -/
theorem C6_exactly_one_call (env : Env) (argv0 a1 a2 : String) :
    (run env argv0 [a1, a2]).2.calls
      = [{ nr := NR_sched_setattr env.arch, pid := parsedPid env a1,
           attr := buildAttr env.uninit (parsedSlice env a2), flags := 0 }] ∧
    (run env argv0 [a1, a2]).2.calls.length = 1 ∧
    (run { env with atoi := sampleAtoi } argv0 ["1234", "0"]).2.calls.map
        (fun c => (c.pid, c.attr.sched_runtime, c.flags))
      = [(1234, 0, 0)] := by
  refine ⟨run_two_calls env argv0 a1 a2, ?_, ?_⟩
  · rw [run_two_calls]
    rfl
  · have e1 : parsedPid { env with atoi := sampleAtoi } "1234" = 1234 := by
      show toInt32 (sampleAtoi "1234") = 1234
      decide
    have e2 : slice_ns (parsedSlice { env with atoi := sampleAtoi } "0") = 0 := by
      show slice_ns (toInt32 (sampleAtoi "0")) = 0
      decide
    rw [run_two_calls, buildAttr_eq]
    simp only [List.map_cons, List.map_nil, e1, e2]

/-- Claim C7: for every task id and non-negative slice given as the two
arguments, when the `sched_setattr` call returns a non-negative value, standard
output is the confirmation line, which contains the decimal task id, the
decimal slice and the decimal value of slice times 1000000, followed by the
success line, which contains the task id, and `main` returns 0; for 1234 and 20
the confirmation line shows 1234, 20 and 20000000. -/
theorem C7_success_report (env : Env) (argv0 a1 a2 : String)
    (h0 : 0 ≤ parsedSlice env a2) (hr : 0 ≤ callResult env a1 a2) :
    (run env argv0 [a1, a2]).1 = 0 ∧
    (run env argv0 [a1, a2]).2.stdout
      = confirmLine (parsedPid env a1) (parsedSlice env a2)
          ((parsedSlice env a2).toNat * 1000000)
        ++ successLine (parsedPid env a1) ∧
    (fmt_d (parsedPid env a1)).data
      <:+: (confirmLine (parsedPid env a1) (parsedSlice env a2)
            ((parsedSlice env a2).toNat * 1000000)).data ∧
    (fmt_d (parsedSlice env a2)).data
      <:+: (confirmLine (parsedPid env a1) (parsedSlice env a2)
            ((parsedSlice env a2).toNat * 1000000)).data ∧
    (fmt_llu ((parsedSlice env a2).toNat * 1000000)).data
      <:+: (confirmLine (parsedPid env a1) (parsedSlice env a2)
            ((parsedSlice env a2).toNat * 1000000)).data ∧
    (fmt_d (parsedPid env a1)).data <:+: (successLine (parsedPid env a1)).data ∧
    confirmLine 1234 20 (20 * 1000000)
      = "Setting PID 1234 to SCHED_NORMAL with Slice 20 ms (20000000 ns)...\n" := by
  have hn := slice_ns_nonneg _ h0 (parsedSlice_bounds env a2).2
  have hlt : ¬ callResult env a1 a2 < 0 := by omega
  refine ⟨?_, ?_, ?_, ?_, ?_, ?_, by decide⟩
  · rw [run_two, if_neg hlt]
  · rw [run_two, if_neg hlt, hn]
  · refine data_mid "Setting PID " _
      (" to SCHED_NORMAL with Slice " ++ fmt_d (parsedSlice env a2) ++ " ms ("
        ++ fmt_llu ((parsedSlice env a2).toNat * 1000000) ++ " ns)...\n") _ ?_
    simp only [confirmLine, String.append_assoc]
  · refine data_mid ("Setting PID " ++ fmt_d (parsedPid env a1) ++ " to SCHED_NORMAL with Slice ")
      _ (" ms (" ++ fmt_llu ((parsedSlice env a2).toNat * 1000000) ++ " ns)...\n") _ ?_
    simp only [confirmLine, String.append_assoc]
  · exact data_mid _ _ _ _ rfl
  · exact data_mid _ _ _ _ rfl

theorem C7_success_report_witness :
    0 ≤ parsedSlice sampleEnv "20" ∧ 0 ≤ callResult sampleEnv "1234" "20" ∧
    (run sampleEnv "set_slice" ["1234", "20"]).1 = 0 ∧
    (run sampleEnv "set_slice" ["1234", "20"]).2.stdout
      = "Setting PID 1234 to SCHED_NORMAL with Slice 20 ms (20000000 ns)...\nSuccess! PID 1234 now has a custom slice.\n" :=
  ⟨by decide, by decide,
   (C7_success_report sampleEnv "set_slice" "1234" "20" (by decide) (by decide)).1,
   (C7_success_report sampleEnv "set_slice" "1234" "20" (by decide) (by decide)).2.1⟩

/-- Claim C8: in every run with two arguments in which the `sched_setattr` call
returns a negative value, `main` writes to standard error a line that contains
the message of the `errno` value the call left, returns 1, and standard output
holds the confirmation line only, so it does not end with the success line;
hence a two-argument run returns 0 exactly when the call returned a
non-negative value. -/
theorem C8_failure_report (env : Env) (argv0 a1 a2 : String) :
    (callResult env a1 a2 < 0 →
      (run env argv0 [a1, a2]).1 = 1 ∧
      (run env argv0 [a1, a2]).2.stderr
        = "sched_setattr failed: " ++ env.strerror (callErrno env a1 a2) ++ "\n" ∧
      (env.strerror (callErrno env a1 a2)).data <:+: (run env argv0 [a1, a2]).2.stderr.data ∧
      (run env argv0 [a1, a2]).2.stdout
        = confirmLine (parsedPid env a1) (parsedSlice env a2) (slice_ns (parsedSlice env a2)) ∧
      ¬ (successLine (parsedPid env a1)).data <:+ (run env argv0 [a1, a2]).2.stdout.data) ∧
    ((run env argv0 [a1, a2]).1 = 0 ↔ 0 ≤ callResult env a1 a2) := by
  constructor
  · intro hneg
    rw [run_two, if_pos hneg]
    refine ⟨rfl, rfl, data_mid _ _ _ _ rfl, rfl, successLine_not_suffix _ _ _ _⟩
  · rw [run_two]
    split
    · simp only [one_ne_zero, false_iff]
      omega
    · simp only [true_iff]
      omega

theorem C8_failure_report_witness :
    callResult sampleEnv "1" "20" < 0 ∧
    (run sampleEnv "set_slice" ["1", "20"]).1 = 1 ∧
    (run sampleEnv "set_slice" ["1", "20"]).2.stderr
      = "sched_setattr failed: Operation not permitted\n" :=
  ⟨by decide,
   ((C8_failure_report sampleEnv "set_slice" "1" "20").1 (by decide)).1,
   ((C8_failure_report sampleEnv "set_slice" "1" "20").1 (by decide)).2.1⟩

/-- Claim C9, as stated, fails: for the arguments 1234 and -1 the parsed slice
is -1 and the `sched_runtime` field is 18446744073708551616, not -1000000; so
the field does not equal slice times 1000000 for every parsed slice. -/
theorem C9_counterexample :
    parsedSlice sampleEnv "-1" = -1 ∧
    (run sampleEnv "set_slice" ["1234", "-1"]).2.calls.map (fun c => c.attr.sched_runtime)
      = [18446744073708551616] ∧
    ¬ (∀ (env : Env) (argv0 a1 a2 : String),
        (run env argv0 [a1, a2]).2.calls.map (fun c => (c.attr.sched_runtime : Int))
          = [parsedSlice env a2 * 1000000]) := by
  refine ⟨by decide, by decide, ?_⟩
  intro h
  have h1 := h sampleEnv "set_slice" "1234" "-1"
  revert h1
  decide

/-- Claim C9, amended: for every slice `main` parses (every 32-bit signed
value), the `sched_runtime` field of the record passed to `sched_setattr`
equals slice times 1000000 as a number exactly when the slice is
non-negative. -/
theorem C9_runtime_exact_iff_nonneg (env : Env) (argv0 a1 a2 : String) :
    (run env argv0 [a1, a2]).2.calls.map (fun c => (c.attr.sched_runtime : Int))
        = [parsedSlice env a2 * 1000000]
      ↔ 0 ≤ parsedSlice env a2 := by
  rw [run_two_calls, buildAttr_eq]
  simp only [List.map_cons, List.map_nil, List.cons.injEq, and_true]
  constructor
  · intro h
    have hnn : (0 : Int) ≤ (slice_ns (parsedSlice env a2) : Int) := Int.ofNat_nonneg _
    omega
  · intro h0
    rw [slice_ns_nonneg _ h0 (parsedSlice_bounds env a2).2]
    push_cast
    rw [Int.toNat_of_nonneg h0]

/-- Claim C10: for every 32-bit signed slice `main` parses, the `sched_runtime`
field is slice times 1000000 reduced modulo `2 ^ 64`; for a negative slice this
is `2 ^ 64` minus the absolute value times 1000000 (for -1:
18446744073708551616), the call is still issued, and the confirmation line
prints the negative slice itself as the millisecond value. -/
theorem C10_runtime_wraps (env : Env) (argv0 a1 a2 : String) :
    (-2 ^ 31 ≤ parsedSlice env a2 ∧ parsedSlice env a2 < 2 ^ 31) ∧
    (run env argv0 [a1, a2]).2.calls.map (fun c => c.attr.sched_runtime)
      = [((parsedSlice env a2 * 1000000) % 2 ^ 64).toNat] ∧
    ((parsedSlice env a2 * 1000000) % 2 ^ 64).toNat
      = (if parsedSlice env a2 < 0 then 2 ^ 64 - (parsedSlice env a2).natAbs * 1000000
         else (parsedSlice env a2).toNat * 1000000) ∧
    (confirmLine (parsedPid env a1) (parsedSlice env a2)
        (((parsedSlice env a2 * 1000000) % 2 ^ 64).toNat)).data
      <+: (run env argv0 [a1, a2]).2.stdout.data ∧
    (fmt_d (parsedSlice env a2)).data
      <:+: (confirmLine (parsedPid env a1) (parsedSlice env a2)
            (((parsedSlice env a2 * 1000000) % 2 ^ 64).toNat)).data ∧
    slice_ns (-1) = 18446744073708551616 ∧
    confirmLine 1234 (-1) (slice_ns (-1))
      = "Setting PID 1234 to SCHED_NORMAL with Slice -1 ms (18446744073708551616 ns)...\n" := by
  have hb := parsedSlice_bounds env a2
  refine ⟨hb, ?_, ?_, ?_, ?_, by decide, by decide⟩
  · rw [run_two_calls, buildAttr_eq, ← slice_ns_mod]
    rfl
  · rw [← slice_ns_mod]
    exact slice_ns_cases _ hb.1 hb.2
  · rw [run_two, ← slice_ns_mod]
    split
    · exact List.prefix_refl _
    · simp only [String.data_append]
      exact List.prefix_append _ _
  · refine data_mid ("Setting PID " ++ fmt_d (parsedPid env a1) ++ " to SCHED_NORMAL with Slice ")
      _ (" ms (" ++ fmt_llu (((parsedSlice env a2 * 1000000) % 2 ^ 64).toNat) ++ " ns)...\n") _ ?_
    simp only [confirmLine, String.append_assoc]

end SetSlice
